import Mathlib

/-!
Shallow embedding of `src/app.py` (Microsoft Teams translator plugin).

The file is a single Flask application: a `TranslationBot` activity handler
(`translate_text`, `_detect_language_and_get_target`, `on_message_activity`,
`on_members_added_activity`) plus the `POST /api/messages` endpoint
(`messages`).  Python strings are modelled as Lean `String`; exceptions as
`Except String`; the external world (the upstream translator HTTP response,
the botbuilder adapter's authentication outcome and synchronous response,
Flask's request parsing) is passed in explicitly as data.
-/

set_option linter.unusedVariables false

set_option maxRecDepth 100000

namespace App

/-- Decidable equality for `Except`, used to evaluate endpoint traces on
concrete inputs. -/
instance {ε α : Type} [DecidableEq ε] [DecidableEq α] : DecidableEq (Except ε α) :=
  fun x y =>
    match x, y with
    | .ok a, .ok b =>
      if h : a = b then .isTrue (by rw [h]) else .isFalse (fun hh => h (Except.ok.inj hh))
    | .error a, .error b =>
      if h : a = b then .isTrue (by rw [h]) else .isFalse (fun hh => h (Except.error.inj hh))
    | .ok _, .error _ => .isFalse (fun hh => Except.noConfusion hh)
    | .error _, .ok _ => .isFalse (fun hh => Except.noConfusion hh)

/-! ### Python string primitives used by the source -/

/-- Characters for which Python `str.isspace()` holds (the set `str.strip()`
strips): U+0009..U+000D, U+001C..U+001F, U+0020, U+0085, U+00A0, U+1680,
U+2000..U+200A, U+2028, U+2029, U+202F, U+205F, U+3000. -/
def pyIsSpace (c : Char) : Bool :=
  decide ((9 ≤ c.toNat ∧ c.toNat ≤ 13) ∨ (28 ≤ c.toNat ∧ c.toNat ≤ 31) ∨
    c.toNat = 32 ∨ c.toNat = 0x85 ∨ c.toNat = 0xA0 ∨ c.toNat = 0x1680 ∨
    (0x2000 ≤ c.toNat ∧ c.toNat ≤ 0x200A) ∨ c.toNat = 0x2028 ∨ c.toNat = 0x2029 ∨
    c.toNat = 0x202F ∨ c.toNat = 0x205F ∨ c.toNat = 0x3000)

/-- Python `str.strip()` on a character list: drop leading and trailing
whitespace. -/
def pyStripList (l : List Char) : List Char :=
  ((l.dropWhile pyIsSpace).reverse.dropWhile pyIsSpace).reverse

/-- Python `str.strip()`. -/
def pyStrip (s : String) : String := ⟨pyStripList s.data⟩

/-- Python `str.lower()` restricted to ASCII case mapping.  No code point
outside A..Z lowercases to a character of the keywords `/help`, `help`,
`/translate help`, so for the membership test of the source this agrees with
full Unicode lowercasing. -/
def pyLowerChar (c : Char) : Char :=
  if 'A' ≤ c ∧ c ≤ 'Z' then Char.ofNat (c.toNat + 32) else c

/-- Python `str.lower()`. -/
def pyLower (s : String) : String := ⟨s.data.map pyLowerChar⟩

/-- Does the second list occur as a leading segment of the first list's
continuation, i.e. is `pre` an initial run of `s`. -/
def strHasPre : List Char → List Char → Bool
  | [], _ => true
  | _ :: _, [] => false
  | a :: as, b :: bs => a == b && strHasPre as bs

/-- Does `needle` occur as a contiguous run somewhere in the list. -/
def strHasSub (needle : List Char) : List Char → Bool
  | [] => needle.isEmpty
  | c :: rest => strHasPre needle (c :: rest) || strHasSub needle rest

/-- Python `needle in hay` on strings (substring containment). -/
def pyContains (hay needle : String) : Bool := strHasSub needle.data hay.data

/-- Python `s.startswith(pre)`. -/
def pyStartsWith (s pre : String) : Bool := strHasPre pre.data s.data

/-! ### Translation Client — `TranslationBot.translate_text` (app.py 41-75) -/

/-- One element of the upstream JSON array: `translations` is the list of
translation objects' `text` fields, `detectedLanguage` the optional
`detectedLanguage.language` field. -/
structure TransItem where
  translations : List String
  detectedLanguage : Option String
deriving DecidableEq

/-- Outcome of `self.translator_client.post(...)`: either the call raised a
transport exception (message `msg`), or a response arrived with the given
status; `jsonBody = none` models a body `response.json()` cannot parse,
`some items` a parsed JSON array of the modelled shape. -/
inductive Upstream where
  | transportError (msg : String)
  | response (status : Nat) (jsonBody : Option (List TransItem))
deriving DecidableEq

/-- Message of the `requests.HTTPError` raised by `response.raise_for_status()`
(reason and URL elided; only the fact that it describes the failure matters). -/
def http_error_message (status : Nat) : String :=
  if status < 500 then toString status ++ " Client Error for url"
  else toString status ++ " Server Error for url"

/-- Representative `str(e)` of the `json.JSONDecodeError` raised by
`response.json()` on an unparsable body. -/
def json_decode_error_message : String := "Expecting value: line 1 column 1 (char 0)"

/-- Representative `str(e)` of the `IndexError` raised by `result[0]` or
`result[0]['translations'][0]` on an empty array. -/
def index_error_message : String := "list index out of range"

/-- The fixed string returned when the HTTP session or the API key is absent
(app.py line 44). -/
def not_configured_message : String := "Translation service not configured"

/-- The head of every caught-exception reply of `translate_text`
(app.py line 75, `f"Sorry, translation failed: {str(e)}"`). -/
def translation_failed_head : String := "Sorry, translation failed: "

/-- The body of the `try:` block of `translate_text` (app.py 46-71):
`raise_for_status` raises for statuses 400..599, `response.json()` raises on
an unparsable body, `result[0]['translations'][0]['text']` raises on missing
elements, `detectedLanguage` falls back to `"unknown"`, and on success the
reply embeds the detected language, the target code and the translated text
(the separator reproduces the source file's bytes). -/
def run_translation_request (target : String) (u : Upstream) : Except String String :=
  match u with
  | .transportError e => .error e
  | .response status jsonBody =>
    if 400 ≤ status ∧ status < 600 then .error (http_error_message status)
    else
      match jsonBody with
      | none => .error json_decode_error_message
      | some [] => .error index_error_message
      | some (item :: _) =>
        match item.translations with
        | [] => .error index_error_message
        | t :: _ =>
          .ok ("**Translated** (" ++ item.detectedLanguage.getD "unknown" ++
            " â†’ " ++ target ++ "):\n" ++ t)

/-- `TranslationBot.translate_text` (app.py 41-75).  `clientPresent` models
`self.translator_client` being non-None, `keyPresent` models
`TRANSLATOR_KEY` being set; `text` is sent upstream and the environment's
answer is `u`.  The `except Exception` clause turns every raised error into
the `Sorry, translation failed:` reply, so the function is total. -/
def translate_text (clientPresent keyPresent : Bool) (text target : String)
    (u : Upstream) : String :=
  if !clientPresent || !keyPresent then not_configured_message
  else
    match run_translation_request target u with
    | .ok s => s
    | .error e => translation_failed_head ++ e

/-! ### Language Heuristic — `_detect_language_and_get_target` (app.py 77-85) -/

/-- `TranslationBot._detect_language_and_get_target` (app.py 77-85): any
code point in the Sinhala block U+0D80..U+0DFF sends the text to English,
otherwise to Sinhala. -/
def detect_language_and_get_target (text : String) : String :=
  if text.data.any (fun c => decide ('඀' ≤ c ∧ c ≤ '෿')) then "en" else "si"

/-! ### Activity Handler — `on_message_activity`, `on_members_added_activity` -/

/-- One outbound activity sent through `turn_context.send_activity`. -/
inductive Sent where
  | text (s : String)
  | typing
deriving DecidableEq

/-- Trace of one handler run: the activities sent, the arguments of each
`_detect_language_and_get_target` call and of each `translate_text` call. -/
structure MsgOutcome where
  sent : List Sent
  heuristicCalls : List String
  translateCalls : List (String × String)
deriving DecidableEq

/-- Reply to empty input (app.py line 92). -/
def empty_prompt : String := "Please send some text to translate!"

/-- The help-command list of app.py line 96. -/
def help_keywords : List String := ["/help", "help", "/translate help"]

/-- `help_text` of app.py 97-112, byte-for-byte (the file stores mojibake
such as U+00E2 U+2020 U+2019 for the arrow; non-ASCII is escaped here). -/
def help_text : String :=
  "\n**Translation Bot Help**\n\nSimply type any text in English or Sinhala, and I'll translate it for you!\n\n**Examples:**\n- Type: \"Hello, how are you?\" â†’ Gets translated to Sinhala\n- Type: \"à¶”à¶¶à¶§ à¶šà·œà·„à·œà¶¸à¶¯?\" â†’ Gets translated to English\n\n**Commands:**\n- `/help` or `help` - Show this help message\n- Just type any text - Auto-detects language and translates\n\n**Supported Languages:**\n- English â†” Sinhala\n            "

/-- `welcome_text` of app.py 131-139, byte-for-byte. -/
def welcome_text : String :=
  "\nðŸ‘‹ **Welcome to Translation Bot!**\n\nI can translate between English and Sinhala instantly!\n\nJust type any text and I'll automatically detect the language and translate it for you.\n\nType `/help` for more information.\n        "

/-- `str(e)` of the `AttributeError` raised by `None.strip()`. -/
def attribute_error_message : String := "'NoneType' object has no attribute 'strip'"

/-- `TranslationBot.on_message_activity` (app.py 87-127).  `textOpt` is
`turn_context.activity.text` (`none` = Python `None`, on which `.strip()`
raises `AttributeError`); `oracle` gives the string `translate_text` returns
for a given text and target.  Errors model uncaught exceptions. -/
def on_message_activity (textOpt : Option String)
    (oracle : String → String → String) : Except String MsgOutcome :=
  match textOpt with
  | none => .error attribute_error_message
  | some t =>
    let user_message := pyStrip t
    if user_message = "" then
      .ok ⟨[Sent.text empty_prompt], [], []⟩
    else if pyLower user_message ∈ help_keywords then
      .ok ⟨[Sent.text help_text], [], []⟩
    else
      let target := detect_language_and_get_target user_message
      .ok ⟨[Sent.typing, Sent.text (oracle user_message target)],
        [user_message], [(user_message, target)]⟩

/-- `TranslationBot.on_members_added_activity` (app.py 129-143): one welcome
message per added member whose id differs from
`turn_context.activity.recipient.id`; no heuristic or translation call. -/
def on_members_added_activity (members_added : List String)
    (recipient_id : String) : MsgOutcome :=
  ⟨(members_added.filter (fun m => m != recipient_id)).map
      (fun _ => Sent.text welcome_text), [], []⟩

/-! ### HTTP Endpoint Layer — `messages` (app.py 154-175) -/

/-- The deserialized `Activity` as far as the handlers read it: a message
activity carries an optional `text`; a conversation-update activity carries
`members_added`, the recipient id, and its (normally absent) `text`. -/
inductive PyActivity where
  | message (textOpt : Option String)
  | conversationUpdate (members_added : List String) (recipient_id : String)
      (textOpt : Option String)
deriving DecidableEq

/-- `activity.text` for either shape. -/
def activity_text : PyActivity → Option String
  | .message t => t
  | .conversationUpdate _ _ t => t

/-- A synchronous `InvokeResponse` returned by `adapter.process_activity`. -/
structure PyResponse where
  body : String
  status : Nat
deriving DecidableEq

/-- Environment of the external botbuilder adapter: whether its
authentication step raises (and with which message), and the synchronous
response it returns when the turn completes. -/
structure AdapterEnv where
  authFails : Bool
  authError : String
  syncResponse : Option PyResponse
deriving DecidableEq

/-- `aux_func` of app.py 165-166: it calls `bot.on_message_activity` for
EVERY activity, regardless of the activity's type. -/
def aux_func (a : PyActivity) (oracle : String → String → String) :
    Except String MsgOutcome :=
  on_message_activity (activity_text a) oracle

/-- Trace of `adapter.process_activity(activity, auth_header, aux_func)`. -/
structure ProcessRun where
  result : Except String (Option PyResponse)
  handlerCalled : Bool
  sent : List Sent
  translateCalls : List (String × String)
deriving DecidableEq

/-- `adapter.process_activity` (external SDK): authenticate — raising on
failure — then run the callback `aux_func`; an exception of the callback
propagates; on success the adapter's synchronous response is returned.
The `auth_header` argument is consumed by the SDK's opaque check, modelled
by `env.authFails`. -/
def process_activity (env : AdapterEnv) (a : PyActivity) (auth_header : String)
    (oracle : String → String → String) : ProcessRun :=
  if env.authFails then ⟨.error env.authError, false, [], []⟩
  else
    match aux_func a oracle with
    | .error e => ⟨.error e, true, [], []⟩
    | .ok out => ⟨.ok env.syncResponse, true, out.sent, out.translateCalls⟩

/-- Body of an HTTP response of the endpoint: empty string, a
`jsonify({"error": msg})` payload, or a raw forwarded body. -/
inductive RespBody where
  | empty
  | jsonError (msg : String)
  | raw (s : String)
deriving DecidableEq

/-- An inbound HTTP request as `messages` reads it: the optional
`Content-Type` header, the combined outcome of `request.json` plus
`Activity().deserialize(body)` (an `Except` because either may raise,
outside the `try:` block), and the optional `Authorization` header. -/
structure HttpRequest where
  contentTypeOpt : Option String
  bodyStage : Except String PyActivity
  authorizationOpt : Option String

/-- Trace of one run of the `messages` view function.  `result` is `.error`
when an exception escapes the function (missing header, body parsing);
`bodyStageReached` records whether the `body = request.json` line ran. -/
structure EndpointRun where
  result : Except String (RespBody × Nat)
  bodyStageReached : Bool
  handlerCalled : Bool
  sent : List Sent
  translateCalls : List (String × String)
deriving DecidableEq

/-- Message of the `KeyError` raised by `request.headers["Content-Type"]`
when the header is absent. -/
def key_error_content_type : String := "KeyError: Content-Type"

/-- The 415 JSON error payload of app.py line 160. -/
def invalid_content_type_message : String := "Invalid content type"

/-- The `messages` view function (app.py 154-175): substring content-type
gate, body deserialization outside the `try:`, `Authorization` defaulted to
the empty string, then `adapter.process_activity` inside `try:` with
exceptions mapped to a 500 JSON error, a synchronous response forwarded
as-is, and an empty 200 otherwise. -/
def messages (req : HttpRequest) (env : AdapterEnv)
    (oracle : String → String → String) : EndpointRun :=
  match req.contentTypeOpt with
  | none => ⟨.error key_error_content_type, false, false, [], []⟩
  | some ct =>
    if pyContains ct "application/json" then
      match req.bodyStage with
      | .error e => ⟨.error e, true, false, [], []⟩
      | .ok activity =>
        let run := process_activity env activity (req.authorizationOpt.getD "") oracle
        match run.result with
        | .error e => ⟨.ok (.jsonError e, 500), true, run.handlerCalled, run.sent, run.translateCalls⟩
        | .ok (some r) => ⟨.ok (.raw r.body, r.status), true, run.handlerCalled, run.sent, run.translateCalls⟩
        | .ok none => ⟨.ok (.empty, 200), true, run.handlerCalled, run.sent, run.translateCalls⟩
    else
      ⟨.ok (.jsonError invalid_content_type_message, 415), false, false, [], []⟩

/-! ### Theorems -/

/-- Stripping a string all of whose characters are Python whitespace yields
the empty string. -/
theorem pyStrip_of_all_space (t : String) (h : ∀ c ∈ t.data, pyIsSpace c = true) :
    pyStrip t = "" := by
  have h1 : t.data.dropWhile pyIsSpace = [] := List.dropWhile_eq_nil_iff.mpr h
  simp [pyStrip, pyStripList, h1]

/-- C2: `_detect_language_and_get_target` returns `"en"` exactly when some
code point of the input lies in U+0D80..U+0DFF, and always returns `"en"` or
`"si"` (it is a total function with no other outcomes). -/
theorem c2_detect_language (text : String) :
    (detect_language_and_get_target text = "en" ↔
      ∃ c ∈ text.data, '඀' ≤ c ∧ c ≤ '෿') ∧
    (detect_language_and_get_target text = "en" ∨
      detect_language_and_get_target text = "si") := by
  have hmem : text.data.any (fun c => decide ('඀' ≤ c ∧ c ≤ '෿')) = true ↔
      ∃ c ∈ text.data, '඀' ≤ c ∧ c ≤ '෿' := by
    rw [List.any_eq_true]
    constructor
    · rintro ⟨c, hc, hp⟩
      exact ⟨c, hc, of_decide_eq_true hp⟩
    · rintro ⟨c, hc, hp⟩
      exact ⟨c, hc, decide_eq_true hp⟩
  cases hb : text.data.any (fun c => decide ('඀' ≤ c ∧ c ≤ '෿')) with
  | true =>
    refine ⟨?_, Or.inl ?_⟩ <;> simp [detect_language_and_get_target, hb]
    exact hmem.mp hb
  | false =>
    have hno : ¬ ∃ c ∈ text.data, '඀' ≤ c ∧ c ≤ '෿' := by
      rw [← hmem, hb]; simp
    have hsi : detect_language_and_get_target text = "si" := by
      unfold detect_language_and_get_target
      rw [hb]
      rfl
    refine ⟨?_, Or.inr hsi⟩
    rw [hsi]
    constructor
    · intro h; exact absurd h (by decide)
    · intro h; exact absurd h hno

/-- Witness for C2 at concrete inputs: a Sinhala character yields `"en"`,
plain ASCII yields `"si"`. -/
theorem c2_detect_language_witness :
    detect_language_and_get_target "ක" = "en" ∧
    detect_language_and_get_target "hello" = "si" := by
  constructor
  · exact (c2_detect_language "ක").1.mpr ⟨'ක', by decide, by decide⟩
  · rcases (c2_detect_language "hello").2 with h | h
    · exfalso
      rcases (c2_detect_language "hello").1.mp h with ⟨c, hc, hr⟩
      have hall : ∀ c ∈ "hello".data, ¬('඀' ≤ c ∧ c ≤ '෿') := by decide
      exact hall c hc hr
    · exact h

/-- C3: when the trimmed, lowercased text is one of the three help keywords,
`on_message_activity` sends exactly the fixed help text and records no
heuristic call and no `translate_text` call. -/
theorem c3_help_command (t : String) (oracle : String → String → String)
    (h : pyLower (pyStrip t) ∈ help_keywords) :
    on_message_activity (some t) oracle =
      .ok ⟨[Sent.text help_text], [], []⟩ := by
  have hne : ¬ (pyStrip t = "") := by
    intro he
    rw [he] at h
    revert h
    decide
  simp only [on_message_activity]
  rw [if_neg hne, if_pos h]

/-- Witness for C3 at the concrete input `"  /HELP  "`. -/
theorem c3_help_command_witness :
    pyLower (pyStrip "  /HELP  ") ∈ help_keywords ∧
    on_message_activity (some "  /HELP  ") (fun _ _ => "") =
      .ok ⟨[Sent.text help_text], [], []⟩ :=
  ⟨by decide, c3_help_command "  /HELP  " (fun _ _ => "") (by decide)⟩

/-- C5: on text made only of whitespace (including the empty text), the
handler sends exactly the fixed prompt and records no heuristic call and no
`translate_text` call. -/
theorem c5_blank_prompt (t : String) (oracle : String → String → String)
    (h : ∀ c ∈ t.data, pyIsSpace c = true) :
    on_message_activity (some t) oracle =
      .ok ⟨[Sent.text empty_prompt], [], []⟩ := by
  have hs : pyStrip t = "" := pyStrip_of_all_space t h
  simp only [on_message_activity]
  rw [if_pos hs]

/-- Witness for C5 at the concrete input `"   \t\n"`. -/
theorem c5_blank_prompt_witness :
    (∀ c ∈ ("   \t\n" : String).data, pyIsSpace c = true) ∧
    on_message_activity (some "   \t\n") (fun _ _ => "") =
      .ok ⟨[Sent.text empty_prompt], [], []⟩ :=
  ⟨by decide, c5_blank_prompt "   \t\n" (fun _ _ => "") (by decide)⟩

/-- C1 (routing bug): a members-added activity POSTed to `/api/messages`
never reaches `on_members_added_activity`, because `aux_func` passes every
activity to `on_message_activity`; its absent text raises `AttributeError`,
so the endpoint replies 500 and sends zero welcome messages — while
`on_members_added_activity` itself, were it invoked, would send exactly one
welcome message for the one non-bot member and no translation call. -/
theorem c1_members_added_routing_bug :
    messages ⟨some "application/json",
        .ok (.conversationUpdate ["user-1"] "bot-id" none), none⟩
        ⟨false, "", none⟩ (fun _ _ => "") =
      ⟨.ok (.jsonError attribute_error_message, 500), true, true, [], []⟩ ∧
    on_members_added_activity ["user-1"] "bot-id" =
      ⟨[Sent.text welcome_text], [], []⟩ := by
  constructor
  · decide
  · decide

/-- C6: a successful upstream response with translated text `"X"` and
detected language `"en"` for target `"si"` yields the formatted reply, and
that reply contains `"en"`, `"si"` and `"X"` as substrings. -/
theorem c6_success_contains :
    translate_text true true "Hello" "si"
        (.response 200 (some [⟨["X"], some "en"⟩])) =
      "**Translated** (en â†’ si):\nX" ∧
    pyContains (translate_text true true "Hello" "si"
        (.response 200 (some [⟨["X"], some "en"⟩]))) "en" = true ∧
    pyContains (translate_text true true "Hello" "si"
        (.response 200 (some [⟨["X"], some "en"⟩]))) "si" = true ∧
    pyContains (translate_text true true "Hello" "si"
        (.response 200 (some [⟨["X"], some "en"⟩]))) "X" = true := by
  refine ⟨by decide, by decide, by decide, by decide⟩

/-- C4 (amended): `translate_text` is a total function into strings; when
the client or key is absent it returns the fixed not-configured string, and
on a transport error, a response status in 400..599, an unparsable body, or
a body missing the expected array elements, it returns the
`Sorry, translation failed:` reply carrying the error description. -/
theorem c4_translate_failure_reply (cp kp : Bool) (text target : String)
    (u : Upstream) :
    ((cp = false ∨ kp = false) →
      translate_text cp kp text target u = not_configured_message) ∧
    (∀ e, cp = true → kp = true → u = .transportError e →
      translate_text cp kp text target u = translation_failed_head ++ e) ∧
    (∀ s b, cp = true → kp = true → u = .response s b → 400 ≤ s → s < 600 →
      translate_text cp kp text target u =
        translation_failed_head ++ http_error_message s) ∧
    (∀ s, cp = true → kp = true → u = .response s none →
      ∃ e, translate_text cp kp text target u = translation_failed_head ++ e) ∧
    (∀ s, cp = true → kp = true → u = .response s (some []) →
      ∃ e, translate_text cp kp text target u = translation_failed_head ++ e) ∧
    (∀ s item rest, cp = true → kp = true →
      u = .response s (some (item :: rest)) → item.translations = [] →
      ∃ e, translate_text cp kp text target u = translation_failed_head ++ e) := by
  refine ⟨?_, ?_, ?_, ?_, ?_, ?_⟩
  · rintro (rfl | rfl)
    · cases kp <;> rfl
    · cases cp <;> rfl
  · rintro e hcp hkp rfl
    subst hcp; subst hkp
    rfl
  · rintro s b hcp hkp rfl h4 h6
    subst hcp; subst hkp
    have hin : 400 ≤ s ∧ s < 600 := ⟨h4, h6⟩
    simp [translate_text, run_translation_request, hin]
  · rintro s hcp hkp rfl
    subst hcp; subst hkp
    by_cases hin : 400 ≤ s ∧ s < 600
    · exact ⟨http_error_message s, by simp [translate_text, run_translation_request, hin]⟩
    · exact ⟨json_decode_error_message, by simp [translate_text, run_translation_request, hin]⟩
  · rintro s hcp hkp rfl
    subst hcp; subst hkp
    by_cases hin : 400 ≤ s ∧ s < 600
    · exact ⟨http_error_message s, by simp [translate_text, run_translation_request, hin]⟩
    · exact ⟨index_error_message, by simp [translate_text, run_translation_request, hin]⟩
  · rintro s item rest hcp hkp rfl htr
    subst hcp; subst hkp
    by_cases hin : 400 ≤ s ∧ s < 600
    · exact ⟨http_error_message s, by simp [translate_text, run_translation_request, hin]⟩
    · exact ⟨index_error_message, by simp [translate_text, run_translation_request, hin, htr]⟩

/-- Witness for C4 (amended) at a concrete transport error. -/
theorem c4_translate_failure_reply_witness :
    translate_text true true "Hello" "si" (.transportError "Connection refused") =
      translation_failed_head ++ "Connection refused" :=
  (c4_translate_failure_reply true true "Hello" "si"
      (.transportError "Connection refused")).2.1 "Connection refused" rfl rfl rfl

/-- Counterexample to C4 as stated: a final status of 300 is non-2xx, yet
`raise_for_status` does not raise for it, so with a well-formed body the
code returns the normal success string — not a failure description and not
the not-configured string. -/
theorem c4_non2xx_counterexample :
    translate_text true true "Hello" "si"
        (.response 300 (some [⟨["X"], some "en"⟩])) =
      "**Translated** (en â†’ si):\nX" ∧
    pyStartsWith (translate_text true true "Hello" "si"
        (.response 300 (some [⟨["X"], some "en"⟩]))) translation_failed_head = false ∧
    translate_text true true "Hello" "si"
        (.response 300 (some [⟨["X"], some "en"⟩])) ≠ not_configured_message := by
  refine ⟨by decide, by decide, by decide⟩

/-- C7 (amended): when the `Content-Type` header is present and does not
contain the substring `application/json`, the endpoint returns exactly the
415 JSON error, without reaching the body-deserialization line, invoking
the handler, sending anything, or calling `translate_text`. -/
theorem c7_content_type_gate_415 (ct : String) (req : HttpRequest)
    (env : AdapterEnv) (oracle : String → String → String)
    (hct : req.contentTypeOpt = some ct)
    (h : pyContains ct "application/json" = false) :
    messages req env oracle =
      ⟨.ok (.jsonError invalid_content_type_message, 415), false, false, [], []⟩ := by
  rcases req with ⟨ctOpt, body, auth⟩
  cases hct
  simp only [messages]
  rw [if_neg]
  rw [h]
  exact Bool.false_ne_true

/-- Witness for C7 (amended) at the concrete header `text/plain`. -/
theorem c7_content_type_gate_415_witness :
    messages ⟨some "text/plain", .ok (.message (some "x")), none⟩
        ⟨false, "", none⟩ (fun _ _ => "") =
      ⟨.ok (.jsonError invalid_content_type_message, 415), false, false, [], []⟩ :=
  c7_content_type_gate_415 "text/plain" _ _ _ rfl (by decide)

/-- Counterexample to C7 as stated: the header value
`application/json; charset=utf-8` differs from `application/json` — so the
claim's premise holds — yet the endpoint does not answer 415: it invokes
the handler and completes the turn with an empty 200. -/
theorem c7_not_equal_counterexample :
    ("application/json; charset=utf-8" : String) ≠ "application/json" ∧
    (messages ⟨some "application/json; charset=utf-8", .ok (.message (some "hi")),
        none⟩ ⟨false, "", none⟩ (fun _ _ => "t")).result = .ok (.empty, 200) ∧
    (messages ⟨some "application/json; charset=utf-8", .ok (.message (some "hi")),
        none⟩ ⟨false, "", none⟩ (fun _ _ => "t")).handlerCalled = true := by
  refine ⟨by decide, by decide, by decide⟩

/-- C8: once the content-type gate passes and the body deserializes, an
exception of `adapter.process_activity` (authentication or handler) becomes
a 500 JSON error; a synchronous response is forwarded with its own body and
status; and no synchronous response yields an empty 200. -/
theorem c8_endpoint_response_mapping (req : HttpRequest) (env : AdapterEnv)
    (oracle : String → String → String) (ct : String) (a : PyActivity)
    (hct : req.contentTypeOpt = some ct)
    (hjson : pyContains ct "application/json" = true)
    (hbody : req.bodyStage = .ok a) :
    (∀ e, (process_activity env a (req.authorizationOpt.getD "") oracle).result = .error e →
      (messages req env oracle).result = .ok (.jsonError e, 500)) ∧
    (∀ r, (process_activity env a (req.authorizationOpt.getD "") oracle).result = .ok (some r) →
      (messages req env oracle).result = .ok (.raw r.body, r.status)) ∧
    ((process_activity env a (req.authorizationOpt.getD "") oracle).result = .ok none →
      (messages req env oracle).result = .ok (.empty, 200)) := by
  rcases req with ⟨ctOpt, body, auth⟩
  cases hct
  cases hbody
  refine ⟨?_, ?_, ?_⟩
  · intro e he
    simp only [messages]
    rw [if_pos hjson]
    simp only [HttpRequest.authorizationOpt] at he
    rw [he]
  · intro r hr
    simp only [messages]
    rw [if_pos hjson]
    simp only [HttpRequest.authorizationOpt] at hr
    rw [hr]
  · intro hn
    simp only [messages]
    rw [if_pos hjson]
    simp only [HttpRequest.authorizationOpt] at hn
    rw [hn]

/-- Witness for C8 at a concrete request whose handler raises
(`AttributeError` on absent text): the endpoint answers 500. -/
theorem c8_endpoint_response_mapping_witness :
    (messages ⟨some "application/json", .ok (.message none), none⟩
        ⟨false, "", none⟩ (fun _ _ => "")).result =
      .ok (.jsonError attribute_error_message, 500) :=
  (c8_endpoint_response_mapping ⟨some "application/json", .ok (.message none), none⟩
      ⟨false, "", none⟩ (fun _ _ => "") "application/json" (.message none)
      rfl (by decide) rfl).1 attribute_error_message (by decide)

/-- C9: a message activity with absent text makes `on_message_activity`
raise `AttributeError` at the initial `.strip()`, so through the endpoint it
surfaces as a 500 JSON error with nothing sent — not as the empty-text
prompt. -/
theorem c9_missing_text_raises (oracle : String → String → String)
    (req : HttpRequest) (env : AdapterEnv)
    (hct : req.contentTypeOpt = some "application/json")
    (hbody : req.bodyStage = .ok (.message none))
    (hauth : env.authFails = false) :
    on_message_activity none oracle = .error attribute_error_message ∧
    (messages req env oracle).result = .ok (.jsonError attribute_error_message, 500) ∧
    (messages req env oracle).sent = [] := by
  have hc : pyContains "application/json" "application/json" = true := by decide
  rcases req with ⟨ctOpt, body, auth⟩
  cases hct
  cases hbody
  refine ⟨rfl, ?_, ?_⟩ <;>
    simp [messages, hc, process_activity, hauth, aux_func, activity_text,
      on_message_activity]

/-- Witness for C9 at a fully concrete request. -/
theorem c9_missing_text_raises_witness :
    on_message_activity none (fun _ _ => "") = .error attribute_error_message ∧
    (messages ⟨some "application/json", .ok (.message none), none⟩
        ⟨false, "", none⟩ (fun _ _ => "")).result =
      .ok (.jsonError attribute_error_message, 500) ∧
    (messages ⟨some "application/json", .ok (.message none), none⟩
        ⟨false, "", none⟩ (fun _ _ => "")).sent = [] :=
  c9_missing_text_raises (fun _ _ => "")
    ⟨some "application/json", .ok (.message none), none⟩ ⟨false, "", none⟩
    rfl rfl rfl

/-- With the header present but lacking the substring, the run is exactly
the explicit 415 return of app.py line 160. -/
theorem messages_not_json_run (ct : String) (body : Except String PyActivity)
    (auth : Option String) (env : AdapterEnv) (oracle : String → String → String)
    (hc : pyContains ct "application/json" = false) :
    messages ⟨some ct, body, auth⟩ env oracle =
      ⟨.ok (.jsonError invalid_content_type_message, 415), false, false, [], []⟩ := by
  simp only [messages]
  rw [if_neg]
  rw [hc]
  exact Bool.false_ne_true

/-- With the header present and containing the substring, the
`body = request.json` line is reached, whatever happens afterwards. -/
theorem messages_json_reached (ct : String) (body : Except String PyActivity)
    (auth : Option String) (env : AdapterEnv) (oracle : String → String → String)
    (hc : pyContains ct "application/json" = true) :
    (messages ⟨some ct, body, auth⟩ env oracle).bodyStageReached = true := by
  simp only [messages]
  rw [if_pos hc]
  rcases body with e | a
  · rfl
  · cases hr : (process_activity env a (auth.getD "") oracle).result with
    | error e => simp [hr]
    | ok o => cases o <;> simp [hr]

/-- C10: the gate of `POST /api/messages` is a substring test: with the
header present, the `request.json` line is reached exactly when the value
contains `application/json`, and the run is exactly the 415 error exactly
when it does not; with the header absent, the function raises `KeyError`
before the 415 branch. -/
theorem c10_substring_gate (req : HttpRequest) (env : AdapterEnv)
    (oracle : String → String → String) :
    (req.contentTypeOpt = none →
      messages req env oracle = ⟨.error key_error_content_type, false, false, [], []⟩) ∧
    (∀ ct, req.contentTypeOpt = some ct →
      (((messages req env oracle).bodyStageReached = true) ↔
        pyContains ct "application/json" = true) ∧
      ((messages req env oracle) =
          ⟨.ok (.jsonError invalid_content_type_message, 415), false, false, [], []⟩ ↔
        pyContains ct "application/json" = false)) := by
  rcases req with ⟨ctOpt, body, auth⟩
  cases ctOpt with
  | none =>
    refine ⟨fun _ => rfl, ?_⟩
    intro ct h
    exact Option.noConfusion h
  | some ct0 =>
    refine ⟨fun h => Option.noConfusion h, ?_⟩
    intro ct h
    injection h with h
    subst h
    cases hc : pyContains ct0 "application/json" with
    | true =>
      have hreach := messages_json_reached ct0 body auth env oracle hc
      refine ⟨⟨fun _ => rfl, fun _ => hreach⟩, ?_, ?_⟩
      · intro heq
        have hb := congrArg EndpointRun.bodyStageReached heq
        rw [hreach] at hb
        exact absurd hb (by decide)
      · intro hf
        exact absurd hf (by decide)
    | false =>
      have h415 := messages_not_json_run ct0 body auth env oracle hc
      refine ⟨⟨?_, ?_⟩, fun _ => rfl, fun _ => h415⟩
      · intro hb
        have hbr := congrArg EndpointRun.bodyStageReached h415
        rw [hbr] at hb
        exact absurd hb (by decide)
      · intro ht
        exact absurd ht (by decide)

/-- Witness for C10: `application/json; charset=utf-8` contains the
substring, so the body line is reached; and the run with that header is not
the 415 error. -/
theorem c10_substring_gate_witness :
    (messages ⟨some "application/json; charset=utf-8", .ok (.message (some "x")),
        none⟩ ⟨false, "", none⟩ (fun _ _ => "y")).bodyStageReached = true :=
  (((c10_substring_gate ⟨some "application/json; charset=utf-8",
        .ok (.message (some "x")), none⟩ ⟨false, "", none⟩ (fun _ _ => "y")).2
      "application/json; charset=utf-8" rfl).1).mpr (by decide)

end App
